import Mathlib

/-!
Verification development for the `grapple` CLI (Go): a shallow embedding of
the request-building layer (`parseFreshness`, `determineTimeWindow`,
`buildFilter`), the vendored logadmin request builder
(`listLogEntriesRequest`, `defaultTimestampFilter`), and the paginated fetch
loop (`fetchAndProcessLogs` / `handleRateLimitError`), together with theorems
about the properties the documentation states for them.

Machine integers are modelled as `Int`/`Nat` with explicit two's-complement
wrapping where the Go code can overflow (`i64wrap`).  Durations are signed
64-bit nanosecond counts, as in Go's `time.Duration`.
-/

namespace Grapple

/-- Two's-complement wrap of an integer into the signed 64-bit range,
modelling Go's defined wraparound of `int64` arithmetic. -/
def i64wrap (n : Int) : Int :=
  (n + 9223372036854775808) % 18446744073709551616 - 9223372036854775808

/-- Numeric value of a decimal digit character. -/
def digitNat (c : Char) : Nat := c.toNat - 48

/-- Model of Go `time`'s `leadingInt`: consume a maximal run of decimal
digits, accumulating into `x`, with the same overflow checks as the Go code
(`x > 1<<63/10` before the multiply, `x > 1<<63` after). Returns the value
and the unconsumed remainder, or an error on overflow. -/
def leadingInt : Nat → List Char → Except Unit (Nat × List Char)
  | x, [] => .ok (x, [])
  | x, c :: cs =>
    if c.isDigit then
      if x > 922337203685477580 then .error ()
      else
        let x' := x * 10 + digitNat c
        if x' > 9223372036854775808 then .error ()
        else leadingInt x' cs
    else .ok (x, c :: cs)

/-- Model of Go `time`'s `leadingFraction`: consume a maximal run of digits
after a decimal point, tracking the scale (a power of ten) and silently
stopping accumulation on overflow, exactly as the Go code does.  The Go
code keeps `scale` in a `float64`; powers of ten up to the overflow bound
are exactly representable there, so a `Nat` scale is faithful. -/
def leadingFraction : Nat → Nat → Bool → List Char → Nat × Nat × List Char
  | x, scale, _, [] => (x, scale, [])
  | x, scale, ovf, c :: cs =>
    if c.isDigit then
      if ovf then leadingFraction x scale ovf cs
      else if x > 922337203685477580 then leadingFraction x scale true cs
      else
        let y := x * 10 + digitNat c
        if y > 9223372036854775808 then leadingFraction x scale true cs
        else leadingFraction y (scale * 10) false cs
    else (x, scale, c :: cs)

/-- Go `time.ParseDuration`'s unit table, in nanoseconds. -/
def unitMapLookup : String → Option Nat
  | "ns" => some 1
  | "us" => some 1000
  | "µs" => some 1000
  | "μs" => some 1000
  | "ms" => some 1000000
  | "s" => some 1000000000
  | "m" => some 60000000000
  | "h" => some 3600000000000
  | _ => none

/-- One pass of Go `time.ParseDuration`'s main loop over `<number><unit>`
groups, accumulating nanoseconds in `d` with Go's overflow checks.  The
fractional contribution `f * unit / scale` is computed in exact integer
arithmetic where Go uses `float64`; the two agree on all inputs relevant
here (Go truncates the float product exactly as the integer division does
for the representable cases).  `fuel` bounds the recursion; every
successful iteration consumes at least the unit character, so fuel
`length + 1` never runs out. -/
def parseDurationLoop : Nat → List Char → Nat → Except String Nat
  | 0, _, _ => .error "time: invalid duration"
  | _ + 1, [], d => .ok d
  | fuel + 1, s@(c :: _), d =>
    if ¬(c = '.' ∨ c.isDigit) then .error "time: invalid duration"
    else
      match leadingInt 0 s with
      | .error _ => .error "time: invalid duration"
      | .ok (v, s1) =>
        let pre : Bool := s1.length != s.length
        let fr :=
          match s1 with
          | '.' :: cs => some (leadingFraction 0 1 false cs)
          | _ => none
        let f := match fr with | some (f, _, _) => f | none => 0
        let scale := match fr with | some (_, sc, _) => sc | none => 1
        let s2 := match fr with | some (_, _, rest) => rest | none => s1
        let post : Bool := match fr with
          | some (_, _, rest) =>
            match s1 with
            | _ :: cs => rest.length != cs.length
            | [] => false
          | none => false
        if pre = false ∧ post = false then .error "time: invalid duration"
        else
          let u := s2.takeWhile (fun ch => ¬(ch = '.' ∨ ch.isDigit))
          let s3 := s2.dropWhile (fun ch => ¬(ch = '.' ∨ ch.isDigit))
          if u = [] then .error "time: missing unit in duration"
          else
            match unitMapLookup (String.mk u) with
            | none => .error "time: unknown unit in duration"
            | some unit =>
              if v > 9223372036854775808 / unit then .error "time: invalid duration"
              else
                let v1 := v * unit
                let v2 := if f > 0 then v1 + f * unit / scale else v1
                if f > 0 ∧ v2 > 9223372036854775808 then .error "time: invalid duration"
                else
                  let d' := d + v2
                  if d' > 9223372036854775808 then .error "time: invalid duration"
                  else parseDurationLoop fuel s3 d'

/-- The body of Go `time.ParseDuration` after the optional sign has been
consumed (`neg` records a leading `-`, `cs1` is the rest): special case
`"0"`, then the `<number><unit>` group loop, then the sign and final
range check. -/
def parseDurationCore (neg : Bool) (cs1 : List Char) (orig : String) : Except String Int :=
  if cs1 = ['0'] then .ok 0
  else if cs1 = [] then .error ("time: invalid duration " ++ orig)
  else
    match parseDurationLoop (cs1.length + 1) cs1 0 with
    | .error e => .error e
    | .ok d =>
      if neg then .ok (-(d : Int))
      else if d > 9223372036854775807 then .error ("time: invalid duration " ++ orig)
      else .ok (d : Int)

/-- Model of Go `time.ParseDuration`: optional sign, special case `"0"`,
then a sequence of `<number><unit>` groups.  Returns the duration in
nanoseconds as a mathematical integer, always within the signed 64-bit
range (Go's overflow checks reject anything outside it). -/
def parseDuration (s : String) : Except String Int :=
  match s.toList with
  | '-' :: rest => parseDurationCore true rest s
  | '+' :: rest => parseDurationCore false rest s
  | cs => parseDurationCore false cs s

/-- Decimal value of a digit string (the accumulator fold of
`strconv.Atoi` on an unsigned input). -/
def digitsVal (cs : List Char) : Nat := cs.foldl (fun acc c => acc * 10 + digitNat c) 0

/-- Model of Go `strconv.Atoi` restricted to the unsigned digit strings the
freshness regex can capture (the capture group `(\d+)` never contains a
sign): the decimal value if it fits a signed 64-bit int, an error
otherwise. -/
def strconvAtoi (s : String) : Except String Int :=
  let cs := s.toList
  if cs ≠ [] ∧ cs.all Char.isDigit then
    if digitsVal cs > 9223372036854775807 then .error "strconv.Atoi: value out of range"
    else .ok (digitsVal cs : Int)
  else .error "strconv.Atoi: invalid syntax"

/-- The submatches of the regex `^(?:(\d+)d)?(.*)$` applied to `s`: the
optional day-count group matches exactly when a nonempty maximal run of
leading digits is followed by the letter `d` (greedy matching cannot
succeed with a shorter digit run, since the character after any shorter
run is itself a digit, not `d`). -/
def freshnessMatch (s : String) : String × String :=
  match s.toList.takeWhile Char.isDigit, s.toList.dropWhile Char.isDigit with
  | c :: t, 'd' :: tail => (String.mk (c :: t), String.mk tail)
  | _, _ => ("", s)

/-- Model of `parseFreshness` (cmd/root.go): split off an optional leading
`<digits>d` day count, add `days * 24 * time.Hour` (64-bit wrapping, as in
Go), then add the remainder parsed by `time.ParseDuration` (again with
64-bit wrapping on the addition). -/
def parseFreshness (expression : String) : Except String Int :=
  if expression = "" then .error ("invalid freshness \"" ++ expression ++ "\"")
  else
    let m := freshnessMatch expression
    let t1 : Except String Int :=
      if m.1 ≠ "" then
        match strconvAtoi m.1 with
        | .error _ => .error ("invalid freshness \"" ++ expression ++ "\"")
        | .ok days => .ok (i64wrap (days * 24 * 3600000000000))
      else .ok 0
    match t1 with
    | .error e => .error e
    | .ok total =>
      if m.2 ≠ "" then
        match parseDuration m.2 with
        | .error _ => .error ("invalid freshness \"" ++ expression ++ "\"")
        | .ok other => .ok (i64wrap (total + other))
      else .ok total

/-! ## Time model

Go's `time.Time` is an absolute instant (seconds and nanoseconds since
January 1, year 1, 00:00:00 UTC) together with a display location; the
locations produced in this program are UTC or fixed zones from RFC 3339
offsets, so a signed offset in seconds suffices. -/

/-- An instant in Go's `time` package: `sec`/`nsec` count from the zero
time (Jan 1, year 1, 00:00:00 UTC); `offset` is the display zone's offset
east of UTC in seconds. -/
structure GoTime where
  sec : Int
  nsec : Int
  offset : Int
deriving DecidableEq

/-- Go's zero `time.Time` (`IsZero` compares against this instant). -/
def zeroTime : GoTime := ⟨0, 0, 0⟩

/-- Go `Time.IsZero`: the instant (not the zone) equals the zero time. -/
def GoTime.isZero (t : GoTime) : Bool := t.sec == 0 && t.nsec == 0

/-- Go `Time.UTC`: same instant, UTC display zone. -/
def GoTime.utc (t : GoTime) : GoTime := { t with offset := 0 }

/-- Go `Time.Add`: shift the instant by a duration in nanoseconds. -/
def GoTime.addNs (t : GoTime) (d : Int) : GoTime :=
  let total := t.sec * 1000000000 + t.nsec + d
  { sec := Int.fdiv total 1000000000, nsec := Int.fmod total 1000000000,
    offset := t.offset }

/-- Gregorian leap-year rule. -/
def isLeap (y : Int) : Bool := y % 4 == 0 && (y % 100 != 0 || y % 400 == 0)

/-- Days in a month of the proleptic Gregorian calendar (Go `daysIn`). -/
def daysIn (m y : Int) : Int :=
  if m = 2 then (if isLeap y then 29 else 28)
  else if m = 4 ∨ m = 6 ∨ m = 9 ∨ m = 11 then 30
  else 31

/-- Days from 1970-01-01 to the Gregorian date `y-m-d` (the standard
era-based civil-calendar conversion, equivalent to Go's `Date`). -/
def daysFromCivil (y m d : Int) : Int :=
  let y' := if m ≤ 2 then y - 1 else y
  let era := Int.fdiv y' 400
  let yoe := y' - era * 400
  let mp := Int.fmod (m + 9) 12
  let doy := Int.fdiv (153 * mp + 2) 5 + d - 1
  let doe := yoe * 365 + Int.fdiv yoe 4 - Int.fdiv yoe 100 + doy
  era * 146097 + doe - 719468

/-- Gregorian date from a count of days since 1970-01-01 (inverse of
`daysFromCivil`; the standard era-based algorithm, equivalent to Go's
`absDate`). -/
def civilFromDays (z0 : Int) : Int × Int × Int :=
  let z := z0 + 719468
  let era := Int.fdiv z 146097
  let doe := z - era * 146097
  let yoe := Int.fdiv (doe - Int.fdiv doe 1460 + Int.fdiv doe 36524 - Int.fdiv doe 146096) 365
  let y := yoe + era * 400
  let doy := doe - (365 * yoe + Int.fdiv yoe 4 - Int.fdiv yoe 100)
  let mp := Int.fdiv (5 * doy + 2) 153
  let d := doy - Int.fdiv (153 * mp + 2) 5 + 1
  let m := if mp < 10 then mp + 3 else mp - 9
  (if m ≤ 2 then y + 1 else y, m, d)

/-- Number of days from the zero time (0001-01-01) to 1970-01-01. -/
def unixEpochDays : Int := 719162

/-- Absolute seconds (since the zero time) of a civil date and time of
day read in UTC. -/
def absSec (y mo d hh mi ss : Int) : Int :=
  (daysFromCivil y mo d + unixEpochDays) * 86400 + hh * 3600 + mi * 60 + ss

/-- Zero-padded two-digit decimal rendering (for in-range fields). -/
def pad2 (n : Int) : String := if 0 ≤ n ∧ n < 10 then "0" ++ toString n else toString n

/-- Zero-padded four-digit decimal rendering of a year. -/
def pad4 (n : Int) : String :=
  if 0 ≤ n ∧ n < 10 then "000" ++ toString n
  else if 0 ≤ n ∧ n < 100 then "00" ++ toString n
  else if 0 ≤ n ∧ n < 1000 then "0" ++ toString n
  else toString n

/-- Go `Time.Format(time.RFC3339)`: render the instant in its display
zone as `2006-01-02T15:04:05Z07:00` (no fractional seconds; `Z` exactly
when the zone offset is zero). -/
def formatRFC3339 (t : GoTime) : String :=
  let lsec := t.sec + t.offset
  let days := Int.fdiv lsec 86400
  let sod := lsec - days * 86400
  let c := civilFromDays (days - unixEpochDays)
  let date := pad4 c.1 ++ "-" ++ pad2 c.2.1 ++ "-" ++ pad2 c.2.2 ++ "T" ++
    pad2 (Int.fdiv sod 3600) ++ ":" ++ pad2 (Int.fdiv (Int.fmod sod 3600) 60) ++ ":" ++
    pad2 (Int.fmod sod 60)
  if t.offset == 0 then date ++ "Z"
  else
    let zsign := if t.offset < 0 then "-" else "+"
    let absOff := if t.offset < 0 then -t.offset else t.offset
    date ++ zsign ++ pad2 (Int.fdiv absOff 3600) ++ ":" ++ pad2 (Int.fdiv (Int.fmod absOff 3600) 60)

/-- Value of a two-digit field, if both characters are digits. -/
def parse2 (a b : Char) : Option Int :=
  if a.isDigit ∧ b.isDigit then some ((digitNat a : Int) * 10 + (digitNat b : Int)) else none

/-- Value of a four-digit field, if all characters are digits. -/
def parse4 (a b c d : Char) : Option Int :=
  if a.isDigit ∧ b.isDigit ∧ c.isDigit ∧ d.isDigit then
    some ((digitNat a : Int) * 1000 + (digitNat b : Int) * 100 +
      (digitNat c : Int) * 10 + (digitNat d : Int))
  else none

/-- Nanoseconds denoted by a fractional-second digit run (the first nine
digits, right-padded to nanosecond scale; further digits are truncated,
as in Go's `parseNanoseconds`). -/
def fracToNanos (ds : List Char) : Int :=
  let taken := ds.take 9
  let v := taken.foldl (fun acc c => acc * 10 + (digitNat c : Int)) 0
  v * (10 : Int) ^ (9 - taken.length)

/-- Consume an optional fractional-second field (a period or a comma —
Go's general parser accepts either separator — followed by at least one
digit), returning the nanoseconds and the unconsumed rest. -/
def parseFrac : List Char → Int × List Char
  | sep :: c :: cs =>
    if (sep = '.' ∨ sep = ',') ∧ c.isDigit then
      let digits := (c :: cs).takeWhile Char.isDigit
      let rest := (c :: cs).dropWhile Char.isDigit
      (fracToNanos digits, rest)
    else (0, sep :: c :: cs)
  | other => (0, other)

/-- Go `time`'s `getnum` with `fixed = true`: exactly two digits. -/
def getnumFixed : List Char → Option (Int × List Char)
  | c1 :: c2 :: r =>
    if c1.isDigit ∧ c2.isDigit then
      some ((digitNat c1 : Int) * 10 + (digitNat c2 : Int), r)
    else none
  | _ => none

/-- Go `time`'s `getnum` with `fixed = false`: two digits when two are
available, otherwise a single digit. -/
def getnumFlex : List Char → Option (Int × List Char)
  | [] => none
  | [c1] => if c1.isDigit then some ((digitNat c1 : Int), []) else none
  | c1 :: c2 :: r =>
    if c1.isDigit then
      if c2.isDigit then some ((digitNat c1 : Int) * 10 + (digitNat c2 : Int), r)
      else some ((digitNat c1 : Int), c2 :: r)
    else none

/-- Model of Go `time.Parse(time.RFC3339, s)`.  `Parse` tries the strict
`parseRFC3339` fast path and, when that fails, falls back to the general
layout-driven parser for `"2006-01-02T15:04:05Z07:00"`; since the general
parser accepts a superset of the fast path for this layout, `Parse`'s
acceptance is the general parser's, modelled here: a four-digit year,
two-digit month and day, a one-or-two-digit hour (`getnum` unfixed),
two-digit minute and second, with month 1–12, day valid for the month,
hour ≤ 23, minute and second ≤ 59; an optional fractional second
introduced by `.` or `,`; then `Z` or a `±HH:MM` offset whose digits are
not range-checked; and nothing after the zone.  A successful parse yields
the instant with the parsed offset as its fixed display zone. -/
def parseRFC3339 (s : String) : Option GoTime :=
  match s.toList with
  | y1 :: y2 :: y3 :: y4 :: '-' :: mo1 :: mo2 :: '-' :: d1 :: d2 :: 'T' :: rest =>
    match parse4 y1 y2 y3 y4, parse2 mo1 mo2, parse2 d1 d2 with
    | some y, some mo, some d =>
      match getnumFlex rest with
      | some (hh, rest1) =>
        match rest1 with
        | ':' :: rest2 =>
          match getnumFixed rest2 with
          | some (mi, rest3) =>
            match rest3 with
            | ':' :: rest4 =>
              match getnumFixed rest4 with
              | some (ss, rest5) =>
                if 1 ≤ mo ∧ mo ≤ 12 ∧ 1 ≤ d ∧ d ≤ daysIn mo y ∧
                    hh ≤ 23 ∧ mi ≤ 59 ∧ ss ≤ 59 then
                  let fr := parseFrac rest5
                  match fr.2 with
                  | ['Z'] => some ⟨absSec y mo d hh mi ss, fr.1, 0⟩
                  | [zs, zh1, zh2, ':', zm1, zm2] =>
                    match parse2 zh1 zh2, parse2 zm1 zm2 with
                    | some zh, some zm =>
                      if zs = '+' ∨ zs = '-' then
                        let off0 := (zh * 60 + zm) * 60
                        let off := if zs = '-' then -off0 else off0
                        some ⟨absSec y mo d hh mi ss - off, fr.1, off⟩
                      else none
                    | _, _ => none
                  | _ => none
                else none
              | none => none
            | _ => none
          | none => none
        | _ => none
      | none => none
    | _, _, _ => none
  | _ => none

/-! ## Query builder (cmd/root.go) -/

/-- Go `fmt`'s `%q` on the strings produced by `formatRFC3339` (which
contain no characters needing escapes): surrounding double quotes. -/
def goQuote (s : String) : String := "\"" ++ s ++ "\""

/-- Model of `buildFilter` (cmd/root.go): combine the time filter and the
user filter into a single filter string. -/
def buildFilter (fromT toT : GoTime) (userFilter : String) : String :=
  let timeFilter :=
    if fromT.isZero = false ∧ toT.isZero = false then
      "timestamp >= " ++ goQuote (formatRFC3339 fromT) ++
        " AND timestamp <= " ++ goQuote (formatRFC3339 toT)
    else ""
  if timeFilter = "" then userFilter
  else if userFilter = "" then timeFilter
  else "(" ++ userFilter ++ ") AND " ++ timeFilter

/-- Model of `determineTimeWindow` (cmd/root.go) over the string values of
the `freshness`, `from` and `to` flags; `now` stands for `time.Now()`. -/
def determineTimeWindow (freshness fromFlag toFlag : String) (now : GoTime) :
    Except String (GoTime × GoTime) :=
  if freshness ≠ "" then
    if fromFlag ≠ "" ∨ toFlag ≠ "" then
      .error "--freshness cannot be used together with --from or --to"
    else
      match parseFreshness freshness with
      | .error e => .error e
      | .ok dur => .ok (now.addNs (-dur), now)
  else if fromFlag ≠ "" ∧ toFlag ≠ "" then
    match parseRFC3339 fromFlag with
    | none => .error ("invalid --from: " ++ fromFlag)
    | some f =>
      match parseRFC3339 toFlag with
      | none => .error ("invalid --to: " ++ toFlag)
      | some t => .ok (f, t)
  else if fromFlag = "" ∧ toFlag = "" then .ok (zeroTime, zeroTime)
  else .error "either specify both --from and --to, or neither"

/-! ## Vendored logadmin client (internal/logadmin) -/

/-- The fields of `logpb.ListLogEntriesRequest` that the client sets. -/
structure ListLogEntriesRequest where
  resourceNames : List String
  filter : String
  orderBy : String
  pageSize : Int
deriving DecidableEq

/-- An `EntriesOption` (internal/logadmin): one mutation of the request. -/
inductive EntriesOption
  | projectIDs (pids : List String)
  | resourceNames (rns : List String)
  | filter (f : String)
  | newestFirst
  | pageSize (p : Int)
deriving DecidableEq

/-- The `set` method of each `EntriesOption`. -/
def EntriesOption.set : EntriesOption → ListLogEntriesRequest → ListLogEntriesRequest
  | .projectIDs pids, r => { r with resourceNames := pids.map (fun v => "projects/" ++ v) }
  | .resourceNames rns, r => { r with resourceNames := rns }
  | .filter f, r => { r with filter := f }
  | .newestFirst, r => { r with orderBy := "timestamp desc" }
  | .pageSize p, r => { r with pageSize := p }

/-- ASCII lowercasing of a character (the fragment of Go
`strings.ToLower` relevant to the `"timestamp"` probe). -/
def goCharToLower (c : Char) : Char :=
  if 'A' ≤ c ∧ c ≤ 'Z' then Char.ofNat (c.toNat + 32) else c

/-- Model of Go `strings.ToLower` (ASCII fragment). -/
def goToLower (s : String) : String := String.mk (s.toList.map goCharToLower)

/-- Whether `sub` occurs as a contiguous sublist of `l`. -/
def containsSublist : List Char → List Char → Bool
  | sub, [] => sub.isEmpty
  | sub, c :: t => sub.isPrefixOf (c :: t) || containsSublist sub t

/-- Model of Go `strings.Contains`: substring occurrence. -/
def goContains (s sub : String) : Bool := containsSublist sub.toList s.toList

/-- Model of `defaultTimestampFilter` (internal/logadmin): default the
filter to a 24-hour lookback unless it already mentions `timestamp`
(case-insensitively); `now` stands for `time.Now()`. -/
def defaultTimestampFilter (filter : String) (now : GoTime) : String :=
  let dayAgo := (now.addNs (-86400000000000)).utc
  if filter.length == 0 then
    "timestamp >= " ++ goQuote (formatRFC3339 dayAgo)
  else if (goContains (goToLower filter) "timestamp") = false then
    filter ++ " AND timestamp >= " ++ goQuote (formatRFC3339 dayAgo)
  else filter

/-- The request assembled by applying each option in sequence to the
initial request for `parent` (the option-application fold of
`listLogEntriesRequest`). -/
def applyEntriesOptions (parent : String) (opts : List EntriesOption) :
    ListLogEntriesRequest :=
  opts.foldl (fun r o => o.set r)
    { resourceNames := [parent], filter := "", orderBy := "", pageSize := 0 }

/-- Model of `listLogEntriesRequest` (internal/logadmin): start from the
parent resource, apply each option in sequence, then apply the default
timestamp filter. -/
def listLogEntriesRequest (parent : String) (opts : List EntriesOption) (now : GoTime) :
    ListLogEntriesRequest :=
  let req := applyEntriesOptions parent opts
  { req with filter := defaultTimestampFilter req.filter now }

/-! ## Paginated fetch loop (cmd/root.go)

The loop is embedded as a deterministic interpreter over a script of
backend responses: element `i` of the script is what the `i`-th call to
`pager.NextPage` produces.  The interpreter records the externally
observable actions (cursor creations, page requests with their
continuation tokens, sleeps, log lines, emitted output lines) as an event
trace, and returns the loop's result. -/

/-- gRPC status codes distinguished by the loop. -/
inductive StatusCode
  | okCode
  | canceledCode
  | unknownCode
  | resourceExhausted
  | unauthenticated
  | otherCode (n : Nat)
deriving DecidableEq

/-- The error shapes a page fetch can produce, as the loop distinguishes
them: `context.Canceled`, the `iterator.Done` sentinel, a structured
`apierror.APIError` (with its reason, quota metadata, gRPC code and
rendered message), a bare gRPC status error, or any other error. -/
inductive FetchErr
  | canceled
  | iteratorDone
  | api (reason quotaLimit quotaLimitValue : String) (code : StatusCode) (msg : String)
  | grpc (code : StatusCode) (msg : String)
  | plain (msg : String)
deriving DecidableEq

/-- Go `err.Error()` for each error shape (`context.Canceled` renders as
`"context canceled"`, `iterator.Done` as `"no more items in iterator"`). -/
def FetchErr.errorString : FetchErr → String
  | .canceled => "context canceled"
  | .iteratorDone => "no more items in iterator"
  | .api _ _ _ _ msg => msg
  | .grpc _ msg => msg
  | .plain msg => msg

/-- Go `errors.Is(err, context.Canceled)`. -/
def FetchErr.isContextCanceled : FetchErr → Bool
  | .canceled => true
  | _ => false

/-- Go `status.FromError`: the gRPC code, for errors that carry one
(`apierror.APIError` implements `GRPCStatus`, as do bare status errors). -/
def FetchErr.statusCode : FetchErr → Option StatusCode
  | .api _ _ _ c _ => some c
  | .grpc c _ => some c
  | _ => none

/-- Whether the type assertion to `*apierror.APIError` succeeds with
`Reason() == "RATE_LIMIT_EXCEEDED"`. -/
def isRateLimitError : FetchErr → Bool
  | .api reason _ _ _ _ => reason == "RATE_LIMIT_EXCEEDED"
  | _ => false

/-- The `quota_limit` metadata entry of an `APIError` (empty when absent
or for other error shapes, as Go's map lookup yields `""`). -/
def FetchErr.quotaLimit : FetchErr → String
  | .api _ ql _ _ _ => ql
  | _ => ""

/-- The `quota_limit_value` metadata entry of an `APIError`. -/
def FetchErr.quotaLimitValue : FetchErr → String
  | .api _ _ qlv _ _ => qlv
  | _ => ""

/-- Result of serializing one log entry with `protojson.Marshal`. -/
inductive MarshalOutcome
  | ok (json : String)
  | failure (msg : String)
deriving DecidableEq

/-- A log entry, reduced to what the loop inspects: its `InsertId` and
the outcome of serializing it. -/
structure LogEntry where
  insertId : String
  marshalResult : MarshalOutcome
deriving DecidableEq

/-- One scripted outcome of a `pager.NextPage` call: a page of entries
with the next continuation token, or an error. -/
inductive PageResponse
  | page (entries : List LogEntry) (nextToken : String)
  | fail (e : FetchErr)
deriving DecidableEq

/-- The externally observable actions of the loop. -/
inductive Event
  | newCursor (opts : List EntriesOption) (token : String)
  | pageRequest (token : String)
  | sleepSec (n : Nat)
  | logLine (s : String)
  | emit (s : String)
deriving DecidableEq

/-- The loop's result: normal return, a verbatim fatal error, the
synthesized unauthenticated error, or (an artifact of the scripted
embedding) exhaustion of the response script mid-loop, carrying the state
the loop would resume with. -/
inductive LoopResult
  | ok
  | fatal (e : FetchErr)
  | unauthenticatedError (msg : String)
  | scriptExhausted (token : String) (rateLimited : Bool)
deriving DecidableEq

/-- Model of `handleRateLimitError` (cmd/root.go): on a rate-limit
`APIError`, log the quota metadata (or a generic line plus the error) the
first time in a streak and a terse `"."` afterwards, sleep one second,
and report `true`; on any other error report `false`. -/
def handleRateLimitError : FetchErr → Bool → List Event × Bool
  | .api reason ql qlv _ msg, rateLimited =>
    if reason = "RATE_LIMIT_EXCEEDED" then
      ((if rateLimited = false then
          (if ql ≠ "" ∧ qlv ≠ "" then
            [Event.logLine ("Rate limit exceeded (" ++ ql ++ ": " ++ qlv ++ "), sleeping...")]
          else
            [Event.logLine "Rate limit exceeded, sleeping...", Event.logLine msg])
        else [Event.logLine "."]) ++ [Event.sleepSec 1], true)
    else ([], false)
  | _, _ => ([], false)

/-- Processing of one fetched entry: emit its JSON line, or log the
serialization failure with the entry's identifier and continue. -/
def processEntry (entry : LogEntry) : Event :=
  match entry.marshalResult with
  | .ok json => .emit json
  | .failure msg =>
    .logLine ("Error marshaling log entry (" ++ entry.insertId ++ "): " ++ msg)

/-- Processing of a fetched page's entries, in order. -/
def processEntries (entries : List LogEntry) : List Event := entries.map processEntry

/-- The pager-driving loop of `fetchAndProcessLogs`, from the point where
a pager exists for continuation token `tok` with rate-limit flag `rl`.
Structure mirrors the Go code: the cancellation/sentinel check, then
`handleRateLimitError` (whose `true` outcome breaks to the outer loop,
re-creating the cursor with the same options and saved token), then the
unauthenticated check, then the fatal-error return; on success, the
one-time rate-limit-cleared notice, per-entry processing, and either
normal termination on an empty token or continuation with the new
token. -/
def runPager (opts : List EntriesOption) :
    List PageResponse → String → Bool → List Event × LoopResult
  | [], tok, rl => ([], .scriptExhausted tok rl)
  | .fail e :: rest, tok, rl =>
    if e.isContextCanceled = true ∨ e.errorString = "no more items in iterator" then
      ([.pageRequest tok], .ok)
    else
      let hr := handleRateLimitError e rl
      if hr.2 = true then
        let cont := runPager opts rest tok true
        (.pageRequest tok :: hr.1 ++ .newCursor opts tok :: cont.1, cont.2)
      else if e.statusCode = some .unauthenticated then
        ([.pageRequest tok],
          .unauthenticatedError
            "unauthenticated, please run `gcloud auth application-default login` and try again")
      else ([.pageRequest tok], .fatal e)
  | .page entries nextTok :: rest, tok, rl =>
    let clearEvs := if rl = true then [Event.logLine "Rate limit expired"] else []
    let entryEvs := processEntries entries
    if nextTok = "" then
      (.pageRequest tok :: clearEvs ++ entryEvs, .ok)
    else
      let cont := runPager opts rest nextTok false
      (.pageRequest tok :: clearEvs ++ entryEvs ++ cont.1, cont.2)

/-- Model of `fetchAndProcessLogs` (cmd/root.go): start with an empty
continuation token and a clear rate-limit flag, create the first cursor,
and drive the pager over the scripted backend responses. -/
def fetchAndProcessLogs (opts : List EntriesOption) (script : List PageResponse) :
    List Event × LoopResult :=
  let r := runPager opts script "" false
  (.newCursor opts "" :: r.1, r.2)

/-- Count of events satisfying a predicate. -/
def countEv (p : Event → Bool) (evs : List Event) : Nat := (evs.filter p).length

/-- Recognizer for page-request events. -/
def isReqEv : Event → Bool
  | .pageRequest _ => true
  | _ => false

/-- Recognizer for the detailed rate-limit log line (both of its forms
begin with `"Rate limit exceeded"`). -/
def isDetailedEv : Event → Bool
  | .logLine s => s.startsWith "Rate limit exceeded"
  | _ => false

/-- Recognizer for the terse `"."` progress log line. -/
def isDotEv : Event → Bool
  | .logLine s => s == "."
  | _ => false

/-- Recognizer for the `"Rate limit expired"` cleared notice. -/
def isClearedEv : Event → Bool
  | .logLine s => s == "Rate limit expired"
  | _ => false

/-- The output lines emitted by a trace, in order. -/
def emittedLines (evs : List Event) : List String :=
  evs.filterMap fun e => match e with | .emit s => some s | _ => none

/-- A script in which the backend serves `N` successful pages, the last
returning an empty continuation token and all earlier ones nonempty. -/
def NPageScript : List PageResponse → Bool
  | [] => false
  | [.page _ t] => t = ""
  | .page _ t :: r :: rest => t ≠ "" && NPageScript (r :: rest)
  | _ => false

/-! ## Shared lemmas -/

instance exceptDecEq {α β : Type} [DecidableEq α] [DecidableEq β] :
    DecidableEq (Except α β)
  | .ok x, .ok y =>
    if h : x = y then isTrue (by rw [h]) else isFalse (fun hc => h (by injection hc))
  | .ok _, .error _ => isFalse (fun hc => by injection hc)
  | .error _, .ok _ => isFalse (fun hc => by injection hc)
  | .error x, .error y =>
    if h : x = y then isTrue (by rw [h]) else isFalse (fun hc => h (by injection hc))

lemma i64wrap_eq_self {x : Int} (h1 : -9223372036854775808 ≤ x)
    (h2 : x ≤ 9223372036854775807) : i64wrap x = x := by
  unfold i64wrap
  omega

lemma parseDurationLoop_le (fuel : Nat) : ∀ s d0 d,
    parseDurationLoop fuel s d0 = .ok d → d0 ≤ 9223372036854775808 →
    d ≤ 9223372036854775808 := by
  induction fuel with
  | zero => intro s d0 d h; simp [parseDurationLoop] at h
  | succ n ih =>
    intro s d0 d h hd0
    match s with
    | [] =>
      simp [parseDurationLoop] at h
      omega
    | c :: cs =>
      simp only [parseDurationLoop] at h
      repeat' split at h
      all_goals simp_all
      all_goals exact ih _ _ _ h (by omega)

lemma parseDurationCore_range {neg : Bool} {cs1 : List Char} {orig : String} {r : Int}
    (h : parseDurationCore neg cs1 orig = .ok r) :
    -9223372036854775808 ≤ r ∧ r ≤ 9223372036854775807 := by
  unfold parseDurationCore at h
  split at h
  · injection h with h
    omega
  · split at h
    · exact absurd h (by simp)
    · split at h
      · exact absurd h (by simp)
      · rename_i d heq
        split at h
        · injection h with h
          have := parseDurationLoop_le _ _ _ _ heq (by omega)
          omega
        · split at h
          · exact absurd h (by simp)
          · injection h with h
            omega

lemma parseDuration_range {s : String} {r : Int} (h : parseDuration s = .ok r) :
    -9223372036854775808 ≤ r ∧ r ≤ 9223372036854775807 := by
  unfold parseDuration at h
  split at h <;> exact parseDurationCore_range h

lemma takeWhile_digits_append (ds rem : List Char) (h : ds.all Char.isDigit = true) :
    (ds ++ 'd' :: rem).takeWhile Char.isDigit = ds ∧
    (ds ++ 'd' :: rem).dropWhile Char.isDigit = 'd' :: rem := by
  have hd : Char.isDigit 'd' = false := by decide
  induction ds with
  | nil => simp [List.takeWhile_cons, List.dropWhile_cons, hd]
  | cons c t ih =>
    simp only [List.all_cons, Bool.and_eq_true] at h
    have h2 := ih h.2
    simp [List.takeWhile_cons, List.dropWhile_cons, h.1, h2.1, h2.2]

lemma string_mk_ne_empty (c : Char) (l : List Char) : String.mk (c :: l) ≠ "" := by
  intro h
  have := congrArg String.data h
  simp at this

lemma freshnessMatch_digits (ds rem : List Char) (h1 : ds ≠ [])
    (h2 : ds.all Char.isDigit = true) :
    freshnessMatch (String.mk (ds ++ 'd' :: rem)) = (String.mk ds, String.mk rem) := by
  have h3 := takeWhile_digits_append ds rem h2
  have h4 : (String.mk (ds ++ 'd' :: rem)).toList = ds ++ 'd' :: rem := rfl
  unfold freshnessMatch
  rw [h4, h3.1, h3.2]
  match ds, h1 with
  | c :: t, _ => rfl

lemma freshnessMatch_nodays {s : String} (h : (freshnessMatch s).1 = "") :
    freshnessMatch s = ("", s) := by
  unfold freshnessMatch at h ⊢
  split at h
  · exact absurd h (string_mk_ne_empty _ _)
  · rfl

lemma strconvAtoi_digits (ds : List Char) (h1 : ds ≠ [])
    (h2 : ds.all Char.isDigit = true) (h3 : digitsVal ds ≤ 9223372036854775807) :
    strconvAtoi (String.mk ds) = .ok (digitsVal ds : Int) := by
  have h4 : (String.mk ds).toList = ds := rfl
  unfold strconvAtoi
  rw [h4]
  rw [if_pos ⟨h1, h2⟩, if_neg (by omega)]

/-! ## Claim theorems -/

/-- C3 (corrected): the claim as stated fails for day counts whose
`days * 24h` product overflows a signed 64-bit duration.  At the concrete
input `"106752d"` the code returns the wrapped negative value
`-9223371273709551616` instead of `106752 * 24h`. -/
theorem parseFreshness_overflow_cex :
    parseFreshness "106752d" = Except.ok (-9223371273709551616) ∧
    parseFreshness "106752d" ≠ Except.ok ((106752 : Int) * 24 * 3600000000000) := by
  constructor
  · decide
  · decide

/-- C3 (amended): for inputs `<digits>d<remainder>`, `<digits>d` alone or
`<remainder>` alone, `parseFreshness` returns `days * 24h` plus the parsed
remainder, provided the products and sum stay within the signed 64-bit
duration range (the Go code multiplies and adds with int64 wraparound and
no overflow check); the empty string, a non-numeric day count, and an
unparseable remainder each yield an error; the documented examples
evaluate as stated. -/
theorem parseFreshness_spec :
    (parseFreshness "1d" = Except.ok 86400000000000) ∧
    (parseFreshness "1d12h30m" = Except.ok 131400000000000) ∧
    (parseFreshness "2h" = Except.ok 7200000000000) ∧
    (∃ e, parseFreshness "" = Except.error e) ∧
    (∃ e, parseFreshness "xd" = Except.error e) ∧
    (∃ e, parseFreshness "1dxyz" = Except.error e) ∧
    (∀ ds rem : List Char, ds ≠ [] → ds.all Char.isDigit = true →
      ∀ r : Int,
        (if rem = [] then Except.ok 0 else parseDuration (String.mk rem)) = Except.ok r →
        (digitsVal ds : Int) * 24 * 3600000000000 ≤ 9223372036854775807 →
        (digitsVal ds : Int) * 24 * 3600000000000 + r ≤ 9223372036854775807 →
        parseFreshness (String.mk (ds ++ 'd' :: rem)) =
          Except.ok ((digitsVal ds : Int) * 24 * 3600000000000 + r)) ∧
    (∀ s : String, (freshnessMatch s).1 = "" → s ≠ "" →
      ∀ r : Int, parseDuration s = Except.ok r → parseFreshness s = Except.ok r) ∧
    (∀ ds rem : List Char, ds ≠ [] → ds.all Char.isDigit = true → rem ≠ [] →
      (∀ r : Int, parseDuration (String.mk rem) ≠ Except.ok r) →
      ∃ e, parseFreshness (String.mk (ds ++ 'd' :: rem)) = Except.error e) := by
  refine ⟨by decide, by decide, by decide,
    ⟨"invalid freshness \"\"", by decide⟩,
    ⟨"invalid freshness \"xd\"", by decide⟩,
    ⟨"invalid freshness \"1dxyz\"", by decide⟩,
    ?_, ?_, ?_⟩
  · intro ds rem hds hdig r hr hb1 hb2
    have hm := freshnessMatch_digits ds rem hds hdig
    have hne : String.mk (ds ++ 'd' :: rem) ≠ "" := by
      match ds, hds with
      | c :: t, _ => exact string_mk_ne_empty _ _
    have hnn : (0 : Int) ≤ (digitsVal ds : Int) := Int.ofNat_nonneg _
    have hdv : digitsVal ds ≤ 9223372036854775807 := by nlinarith
    have hatoi := strconvAtoi_digits ds hds hdig hdv
    have hmkds : String.mk ds ≠ "" := by
      match ds, hds with
      | c :: t, _ => exact string_mk_ne_empty _ _
    have hw1 : i64wrap ((digitsVal ds : Int) * 24 * 3600000000000) =
        (digitsVal ds : Int) * 24 * 3600000000000 :=
      i64wrap_eq_self (by nlinarith) hb1
    by_cases hrem : rem = []
    · subst hrem
      simp only [if_pos rfl] at hr
      have hr0 : (0 : Int) = r := by injection hr
      have hemk : String.mk ([] : List Char) = "" := rfl
      simp only [parseFreshness, hne, ite_false, hm, hemk, ne_eq, not_true_eq_false,
        ite_true, hmkds, not_false_eq_true, hatoi, hw1, if_neg, if_false]
      rw [← hr0]
      norm_num
    · have hmkrem : String.mk rem ≠ "" := by
        match rem, hrem with
        | c :: t, _ => exact string_mk_ne_empty _ _
      rw [if_neg hrem] at hr
      have hrg := parseDuration_range hr
      simp only [parseFreshness, hne, ite_false, hm, ne_eq, hmkds, not_false_eq_true,
        ite_true, hatoi, hw1, hmkrem, hr]
      rw [i64wrap_eq_self (by nlinarith) hb2]
  · intro s h1 h2 r hr
    have hm := freshnessMatch_nodays h1
    have hrg := parseDuration_range hr
    simp only [parseFreshness, h2, ite_false, hm, ne_eq, not_true_eq_false, ite_true,
      not_false_eq_true, hr]
    rw [show (0 : Int) + r = r by ring, i64wrap_eq_self hrg.1 hrg.2]
  · intro ds rem hds hdig hrem hfail
    have hm := freshnessMatch_digits ds rem hds hdig
    have hne : String.mk (ds ++ 'd' :: rem) ≠ "" := by
      match ds, hds with
      | c :: t, _ => exact string_mk_ne_empty _ _
    have hmkds : String.mk ds ≠ "" := by
      match ds, hds with
      | c :: t, _ => exact string_mk_ne_empty _ _
    have hmkrem : String.mk rem ≠ "" := by
      match rem, hrem with
      | c :: t, _ => exact string_mk_ne_empty _ _
    cases hp : parseDuration (String.mk rem) with
    | ok r => exact absurd hp (hfail r)
    | error e =>
      cases hatoi : strconvAtoi (String.mk ds) with
      | error e2 =>
        refine ⟨"invalid freshness \"" ++ String.mk (ds ++ 'd' :: rem) ++ "\"", ?_⟩
        simp only [parseFreshness, hne, ite_false, hm, ne_eq, hmkds, not_false_eq_true,
          ite_true, hatoi]
      | ok days =>
        refine ⟨"invalid freshness \"" ++ String.mk (ds ++ 'd' :: rem) ++ "\"", ?_⟩
        simp only [parseFreshness, hne, ite_false, hm, ne_eq, hmkds, not_false_eq_true,
          ite_true, hatoi, hmkrem, hp]

/-- Witness for the amended C3 theorem at concrete inputs: `"3d2h"`
parses to `3 * 24h + 2h`, and `"5dqq"` (unparseable remainder) errors. -/
theorem parseFreshness_spec_witness :
    parseFreshness (String.mk (['3'] ++ 'd' :: ['2', 'h'])) =
      Except.ok ((digitsVal ['3'] : Int) * 24 * 3600000000000 + 7200000000000) ∧
    (∃ e, parseFreshness (String.mk (['5'] ++ 'd' :: ['q', 'q'])) = Except.error e) :=
  ⟨parseFreshness_spec.2.2.2.2.2.2.1 ['3'] ['2', 'h'] (by decide) (by decide)
      7200000000000 (by decide) (by decide) (by decide),
    parseFreshness_spec.2.2.2.2.2.2.2.2 ['5'] ['q', 'q'] (by decide) (by decide)
      (by decide) (fun r hr => by
        have : parseDuration (String.mk ['q', 'q']) = Except.error "time: invalid duration" := by
          decide
        rw [this] at hr
        exact absurd hr (by simp))⟩

lemma data_append_ne_nil (s t : String) (hs : s.data ≠ []) : (s ++ t).data ≠ [] := by
  rw [String.data_append]
  simp [hs]

lemma timeFilter_ne_empty (a b : String) :
    ("timestamp >= " ++ a ++ " AND timestamp <= " ++ b) ≠ "" := by
  intro h
  have hd : ("timestamp >= " ++ a ++ " AND timestamp <= " ++ b).data = [] := by
    rw [h]
  exact data_append_ne_nil _ _
    (data_append_ne_nil _ _ (data_append_ne_nil _ _ (by decide))) hd

/-- C4 (confirmed): the filter builder returns the user filter unchanged
when the time window is absent (either endpoint zero); returns exactly the
`timestamp >= ... AND timestamp <= ...` predicate when only the window is
present; parenthesizes the user predicate and conjoins when both are
present; and returns the empty string when neither is present. -/
theorem buildFilter_spec (fromT toT : GoTime) (u : String) :
    (fromT.isZero = true ∨ toT.isZero = true → buildFilter fromT toT u = u) ∧
    (fromT.isZero = false → toT.isZero = false → u = "" →
      buildFilter fromT toT u =
        "timestamp >= " ++ goQuote (formatRFC3339 fromT) ++
          " AND timestamp <= " ++ goQuote (formatRFC3339 toT)) ∧
    (fromT.isZero = false → toT.isZero = false → u ≠ "" →
      buildFilter fromT toT u =
        "(" ++ u ++ ") AND " ++
          ("timestamp >= " ++ goQuote (formatRFC3339 fromT) ++
            " AND timestamp <= " ++ goQuote (formatRFC3339 toT))) ∧
    ((fromT.isZero = true ∨ toT.isZero = true) → u = "" → buildFilter fromT toT u = "") := by
  refine ⟨?_, ?_, ?_, ?_⟩
  · intro h
    have hc : ¬(fromT.isZero = false ∧ toT.isZero = false) := by
      rcases h with h | h <;> simp [h]
    simp [buildFilter, hc]
  · intro h1 h2 h3
    have hne := timeFilter_ne_empty (goQuote (formatRFC3339 fromT)) (goQuote (formatRFC3339 toT))
    simp only [buildFilter, h1, h2, and_self, ite_true, hne, ite_false, h3, if_true]
  · intro h1 h2 h3
    have hne := timeFilter_ne_empty (goQuote (formatRFC3339 fromT)) (goQuote (formatRFC3339 toT))
    simp only [buildFilter, h1, h2, and_self, ite_true, hne, ite_false, h3, if_false]
  · intro h h2
    have hc : ¬(fromT.isZero = false ∧ toT.isZero = false) := by
      rcases h with h | h <;> simp [h]
    simp [buildFilter, hc, h2]

/-- Witness for the C4 theorem at concrete inputs. -/
theorem buildFilter_spec_witness :
    buildFilter zeroTime zeroTime "severity>=ERROR" = "severity>=ERROR" ∧
    buildFilter ⟨63839664000, 0, 0⟩ ⟨63839750400, 0, 0⟩ "severity>=ERROR" =
      "(severity>=ERROR) AND " ++
        ("timestamp >= " ++ goQuote (formatRFC3339 ⟨63839664000, 0, 0⟩) ++
          " AND timestamp <= " ++ goQuote (formatRFC3339 ⟨63839750400, 0, 0⟩)) ∧
    buildFilter zeroTime zeroTime "" = "" :=
  ⟨(buildFilter_spec zeroTime zeroTime "severity>=ERROR").1 (Or.inl (by decide)),
    (buildFilter_spec ⟨63839664000, 0, 0⟩ ⟨63839750400, 0, 0⟩ "severity>=ERROR").2.2.1
      (by decide) (by decide) (by decide),
    (buildFilter_spec zeroTime zeroTime "").2.2.2 (Or.inl (by decide)) rfl⟩

/-- C5 (confirmed): time-window resolution rejects `freshness` combined
with `from` or `to`, rejects `from` without `to` (and vice versa),
succeeds with the zero (unset) window when none are supplied, succeeds
when both `from` and `to` parse as RFC 3339, and rejects an invalid
RFC 3339 value in either position. -/
theorem determineTimeWindow_spec (fr f t : String) (now : GoTime) :
    (fr ≠ "" → (f ≠ "" ∨ t ≠ "") →
      determineTimeWindow fr f t now =
        .error "--freshness cannot be used together with --from or --to") ∧
    (fr = "" → f = "" → t = "" →
      determineTimeWindow fr f t now = .ok (zeroTime, zeroTime)) ∧
    (fr = "" → f ≠ "" → t = "" →
      determineTimeWindow fr f t now =
        .error "either specify both --from and --to, or neither") ∧
    (fr = "" → f = "" → t ≠ "" →
      determineTimeWindow fr f t now =
        .error "either specify both --from and --to, or neither") ∧
    (fr = "" → f ≠ "" → t ≠ "" → ∀ tf tt : GoTime,
      parseRFC3339 f = some tf → parseRFC3339 t = some tt →
      determineTimeWindow fr f t now = .ok (tf, tt)) ∧
    (fr = "" → f ≠ "" → t ≠ "" → parseRFC3339 f = none →
      determineTimeWindow fr f t now = .error ("invalid --from: " ++ f)) ∧
    (fr = "" → f ≠ "" → t ≠ "" → ∀ tf : GoTime, parseRFC3339 f = some tf →
      parseRFC3339 t = none →
      determineTimeWindow fr f t now = .error ("invalid --to: " ++ t)) := by
  refine ⟨?_, ?_, ?_, ?_, ?_, ?_, ?_⟩
  · intro h1 h2
    rcases h2 with h2 | h2 <;> simp [determineTimeWindow, h1, h2]
  · intro h1 h2 h3
    simp [determineTimeWindow, h1, h2, h3]
  · intro h1 h2 h3
    simp [determineTimeWindow, h1, h2, h3]
  · intro h1 h2 h3
    simp [determineTimeWindow, h1, h2, h3]
  · intro h1 h2 h3 tf tt hf ht
    simp [determineTimeWindow, h1, h2, h3, hf, ht]
  · intro h1 h2 h3 hf
    simp [determineTimeWindow, h1, h2, h3, hf]
  · intro h1 h2 h3 tf hf ht
    simp [determineTimeWindow, h1, h2, h3, hf, ht]

/-- Witness for the C5 theorem at concrete inputs (including a value the
lenient general parser accepts: a single-digit hour). -/
theorem determineTimeWindow_spec_witness :
    determineTimeWindow "2h" "x" "" zeroTime =
      .error "--freshness cannot be used together with --from or --to" ∧
    determineTimeWindow "" "" "" zeroTime = .ok (zeroTime, zeroTime) ∧
    determineTimeWindow "" "2024-01-02T03:04:05Z" "2024-01-03T00:00:00Z" zeroTime =
      .ok (⟨63839761445, 0, 0⟩, ⟨63839836800, 0, 0⟩) ∧
    determineTimeWindow "" "2024-01-02T3:04:05Z" "2024-01-03T00:00:00Z" zeroTime =
      .ok (⟨63839761445, 0, 0⟩, ⟨63839836800, 0, 0⟩) ∧
    determineTimeWindow "" "bogus" "2024-01-03T00:00:00Z" zeroTime =
      .error ("invalid --from: " ++ "bogus") :=
  ⟨(determineTimeWindow_spec "2h" "x" "" zeroTime).1 (by decide) (Or.inl (by decide)),
    (determineTimeWindow_spec "" "" "" zeroTime).2.1 rfl rfl rfl,
    (determineTimeWindow_spec "" "2024-01-02T03:04:05Z" "2024-01-03T00:00:00Z"
        zeroTime).2.2.2.2.1 rfl (by decide) (by decide) _ _ (by decide) (by decide),
    (determineTimeWindow_spec "" "2024-01-02T3:04:05Z" "2024-01-03T00:00:00Z"
        zeroTime).2.2.2.2.1 rfl (by decide) (by decide) _ _ (by decide) (by decide),
    (determineTimeWindow_spec "" "bogus" "2024-01-03T00:00:00Z" zeroTime).2.2.2.2.2.1
      rfl (by decide) (by decide) (by decide)⟩

lemma string_ne_empty_data {s : String} (h : s ≠ "") : s.data ≠ [] := by
  intro hd
  apply h
  obtain ⟨d⟩ := s
  cases hd
  rfl

lemma length_beq_zero_of_ne {s : String} (h : s ≠ "") : (s.length == 0) = false := by
  have hd := string_ne_empty_data h
  obtain ⟨d⟩ := s
  cases d with
  | nil => exact absurd rfl hd
  | cons c t => rfl

/-- The 24-hour-lookback predicate that `defaultTimestampFilter` inserts,
rendered for clock reading `now`. -/
def dayAgoPred (now : GoTime) : String :=
  "timestamp >= " ++ goQuote (formatRFC3339 ((now.addNs (-86400000000000)).utc))

lemma defaultTimestampFilter_empty (now : GoTime) :
    defaultTimestampFilter "" now = dayAgoPred now := rfl

lemma defaultTimestampFilter_append {f : String} (now : GoTime) (h1 : f ≠ "")
    (h2 : goContains (goToLower f) "timestamp" = false) :
    defaultTimestampFilter f now = f ++ " AND " ++ dayAgoPred now := by
  unfold defaultTimestampFilter dayAgoPred
  rw [length_beq_zero_of_ne h1]
  simp only [Bool.false_eq_true, ite_false, h2, ite_true]
  simp [String.ext_iff, String.data_append]

lemma defaultTimestampFilter_passthrough {f : String} (now : GoTime)
    (h : goContains (goToLower f) "timestamp" = true) :
    defaultTimestampFilter f now = f := by
  have h1 : f ≠ "" := by
    intro he
    rw [he] at h
    exact absurd h (by decide)
  unfold defaultTimestampFilter
  rw [length_beq_zero_of_ne h1]
  simp [h]

lemma listLogEntriesRequest_filter (parent : String) (opts : List EntriesOption)
    (now : GoTime) :
    (listLogEntriesRequest parent opts now).filter =
      defaultTimestampFilter (applyEntriesOptions parent opts).filter now := rfl

/-- C10 (confirmed): the vendored client's request builder replaces an
empty assembled filter with the 24-hour `timestamp >=` predicate, appends
that predicate with `AND` when the filter does not mention `timestamp`
case-insensitively, and passes the filter through unchanged (no default
lookback) when it mentions `timestamp` anywhere. -/
theorem listLogEntriesRequest_default_filter (parent : String)
    (opts : List EntriesOption) (now : GoTime) :
    ((applyEntriesOptions parent opts).filter = "" →
      (listLogEntriesRequest parent opts now).filter = dayAgoPred now) ∧
    ((applyEntriesOptions parent opts).filter ≠ "" →
      goContains (goToLower (applyEntriesOptions parent opts).filter) "timestamp" = false →
      (listLogEntriesRequest parent opts now).filter =
        (applyEntriesOptions parent opts).filter ++ " AND " ++
          dayAgoPred now) ∧
    (goContains
        (goToLower (applyEntriesOptions parent opts).filter)
        "timestamp" = true →
      (listLogEntriesRequest parent opts now).filter =
        (applyEntriesOptions parent opts).filter) := by
  refine ⟨?_, ?_, ?_⟩
  · intro h
    rw [listLogEntriesRequest_filter, h, defaultTimestampFilter_empty]
  · intro h1 h2
    rw [listLogEntriesRequest_filter, defaultTimestampFilter_append now h1 h2]
  · intro h
    rw [listLogEntriesRequest_filter, defaultTimestampFilter_passthrough now h]

/-- Witness for the C10 theorem at concrete inputs (clock reading
2024-01-02T00:00:00Z; the inserted predicate reads 2024-01-01). -/
theorem listLogEntriesRequest_default_filter_witness :
    (listLogEntriesRequest "projects/p" [EntriesOption.filter ""]
      ⟨63839750400, 0, 0⟩).filter = dayAgoPred ⟨63839750400, 0, 0⟩ ∧
    (listLogEntriesRequest "projects/p" [EntriesOption.filter "severity>=ERROR"]
      ⟨63839750400, 0, 0⟩).filter =
        "severity>=ERROR" ++ " AND " ++ dayAgoPred ⟨63839750400, 0, 0⟩ ∧
    (listLogEntriesRequest "projects/p" [EntriesOption.filter "a TIMESTAMP b"]
      ⟨63839750400, 0, 0⟩).filter = "a TIMESTAMP b" :=
  ⟨(listLogEntriesRequest_default_filter "projects/p" [EntriesOption.filter ""]
      ⟨63839750400, 0, 0⟩).1 rfl,
    (listLogEntriesRequest_default_filter "projects/p"
      [EntriesOption.filter "severity>=ERROR"] ⟨63839750400, 0, 0⟩).2.1
      (by decide) (by decide),
    (listLogEntriesRequest_default_filter "projects/p"
      [EntriesOption.filter "a TIMESTAMP b"] ⟨63839750400, 0, 0⟩).2.2
      (by decide)⟩

/-- C9 (corrected): counterexample to "the default lookback window is
applied by the remote service rather than by the program" — with no time
window and an empty user filter, the request that the program's own
vendored logadmin client builds (before anything reaches the remote
service) already carries the 24-hour `timestamp >=` predicate. -/
theorem defaultLookback_by_client_cex :
    buildFilter zeroTime zeroTime "" = "" ∧
    (listLogEntriesRequest "projects/p"
        [EntriesOption.filter (buildFilter zeroTime zeroTime "")]
        ⟨63839750400, 0, 0⟩).filter = "timestamp >= \"2024-01-01T00:00:00Z\"" ∧
    (listLogEntriesRequest "projects/p"
        [EntriesOption.filter (buildFilter zeroTime zeroTime "")]
        ⟨63839750400, 0, 0⟩).filter ≠ buildFilter zeroTime zeroTime "" := by
  refine ⟨rfl, by decide, by decide⟩

/-- C9 (amended): with neither a from/to pair nor freshness supplied, the
time-window/filter-building layer adds no explicit time filter (the built
filter equals the user filter, possibly empty); the default 24-hour
lookback is then applied inside the program by the vendored logadmin
client when it builds the request (whenever the filter does not already
mention `timestamp`), rather than by the remote service. -/
theorem noTimeWindow_filter_passthrough (now : GoTime) (u parent : String) :
    determineTimeWindow "" "" "" now = .ok (zeroTime, zeroTime) ∧
    buildFilter zeroTime zeroTime u = u ∧
    (u = "" →
      (listLogEntriesRequest parent [EntriesOption.filter u] now).filter =
        dayAgoPred now) ∧
    (u ≠ "" → goContains (goToLower u) "timestamp" = false →
      (listLogEntriesRequest parent [EntriesOption.filter u] now).filter =
        u ++ " AND " ++ dayAgoPred now) := by
  have hfold : (applyEntriesOptions parent [EntriesOption.filter u]).filter = u := rfl
  refine ⟨by simp [determineTimeWindow], by simp [buildFilter, zeroTime, GoTime.isZero],
    ?_, ?_⟩
  · intro h
    rw [listLogEntriesRequest_filter, hfold, h, defaultTimestampFilter_empty]
  · intro h1 h2
    rw [listLogEntriesRequest_filter, hfold, defaultTimestampFilter_append now h1 h2]

/-- Witness for the amended C9 theorem at concrete inputs. -/
theorem noTimeWindow_filter_passthrough_witness :
    buildFilter zeroTime zeroTime "resource.type=k8s_container" =
      "resource.type=k8s_container" ∧
    (listLogEntriesRequest "projects/p"
        [EntriesOption.filter "resource.type=k8s_container"]
        ⟨63839750400, 0, 0⟩).filter =
      "resource.type=k8s_container" ++ " AND " ++ dayAgoPred ⟨63839750400, 0, 0⟩ :=
  ⟨(noTimeWindow_filter_passthrough ⟨63839750400, 0, 0⟩ "resource.type=k8s_container"
      "projects/p").2.1,
    (noTimeWindow_filter_passthrough ⟨63839750400, 0, 0⟩ "resource.type=k8s_container"
      "projects/p").2.2.2 (by decide) (by decide)⟩

/-! ## Fetch-loop lemmas -/

lemma handleRateLimitError_of_not_rl {e : FetchErr} (rl : Bool)
    (h : isRateLimitError e = false) : handleRateLimitError e rl = ([], false) := by
  cases e <;> simp [isRateLimitError] at h ⊢ <;> simp [handleRateLimitError]
  case api reason ql qlv c msg => simp [handleRateLimitError, h]

lemma handleRateLimitError_rl_snd {e : FetchErr} (rl : Bool)
    (h : isRateLimitError e = true) : (handleRateLimitError e rl).2 = true := by
  cases e <;> simp [isRateLimitError] at h
  case api reason ql qlv c msg => simp [handleRateLimitError, h]

lemma handleRateLimitError_rl_true_events {e : FetchErr}
    (h : isRateLimitError e = true) :
    (handleRateLimitError e true).1 = [.logLine ".", .sleepSec 1] := by
  cases e <;> simp [isRateLimitError] at h
  case api reason ql qlv c msg => simp [handleRateLimitError, h]

lemma handleRateLimitError_rl_false_events {e : FetchErr}
    (h : isRateLimitError e = true) :
    (handleRateLimitError e false).1 =
      [.logLine ("Rate limit exceeded (" ++ e.quotaLimit ++ ": " ++ e.quotaLimitValue ++
        "), sleeping..."), .sleepSec 1] ∨
    (handleRateLimitError e false).1 =
      [.logLine "Rate limit exceeded, sleeping...", .logLine e.errorString, .sleepSec 1] := by
  cases e <;> simp [isRateLimitError] at h
  case api reason ql qlv c msg =>
    by_cases hm : ql ≠ "" ∧ qlv ≠ ""
    · left
      simp [handleRateLimitError, h, hm, FetchErr.quotaLimit, FetchErr.quotaLimitValue]
    · right
      simp [handleRateLimitError, h, hm, FetchErr.errorString]

lemma isRateLimitError_not_canceled {e : FetchErr} (h : isRateLimitError e = true) :
    e.isContextCanceled = false := by
  cases e <;> first | rfl | simp [isRateLimitError] at h

lemma emittedLines_handleRateLimitError (e : FetchErr) (rl : Bool) :
    emittedLines (handleRateLimitError e rl).1 = [] := by
  unfold handleRateLimitError
  cases e
  case api reason ql qlv c msg =>
    by_cases h1 : reason = "RATE_LIMIT_EXCEEDED"
    · by_cases h2 : rl = false
      · by_cases h3 : ql ≠ "" ∧ qlv ≠ ""
        · simp only [h1, h2, ite_true, ite_false]
          rw [if_pos h3]
          rfl
        · simp only [h1, h2, ite_true, ite_false]
          rw [if_neg h3]
          rfl
      · simp only [h1, h2, ite_true, ite_false]
        rfl
    · simp only [h1, ite_false]
      rfl
  all_goals rfl

lemma emittedLines_append (a b : List Event) :
    emittedLines (a ++ b) = emittedLines a ++ emittedLines b := by
  simp [emittedLines, List.filterMap_append]

lemma emittedLines_cons_pageRequest (tok : String) (l : List Event) :
    emittedLines (.pageRequest tok :: l) = emittedLines l := rfl

lemma emittedLines_cons_newCursor (opts : List EntriesOption) (tok : String)
    (l : List Event) :
    emittedLines (.newCursor opts tok :: l) = emittedLines l := rfl

lemma runPager_fail_done (opts : List EntriesOption) (e : FetchErr)
    (rest : List PageResponse) (tok : String) (rl : Bool)
    (h : e.isContextCanceled = true ∨ e.errorString = "no more items in iterator") :
    runPager opts (.fail e :: rest) tok rl = ([.pageRequest tok], .ok) := by
  simp only [runPager]
  rw [if_pos h]

lemma runPager_fail_rl (opts : List EntriesOption) (e : FetchErr)
    (rest : List PageResponse) (tok : String) (rl : Bool)
    (h1 : isRateLimitError e = true)
    (h2 : e.errorString ≠ "no more items in iterator") :
    runPager opts (.fail e :: rest) tok rl =
      (.pageRequest tok :: (handleRateLimitError e rl).1 ++ .newCursor opts tok ::
        (runPager opts rest tok true).1,
       (runPager opts rest tok true).2) := by
  simp only [runPager]
  rw [if_neg (by simp [isRateLimitError_not_canceled h1, h2]),
    if_pos (handleRateLimitError_rl_snd rl h1)]

lemma runPager_page (opts : List EntriesOption) (entries : List LogEntry)
    (nextTok : String) (rest : List PageResponse) (tok : String) (rl : Bool) :
    runPager opts (.page entries nextTok :: rest) tok rl =
      if nextTok = "" then
        (.pageRequest tok ::
          (if rl = true then [Event.logLine "Rate limit expired"] else []) ++
          processEntries entries, .ok)
      else
        (.pageRequest tok ::
          (if rl = true then [Event.logLine "Rate limit expired"] else []) ++
          processEntries entries ++ (runPager opts rest nextTok false).1,
         (runPager opts rest nextTok false).2) := by
  simp only [runPager]

lemma runPager_cons_head (opts : List EntriesOption) (r : PageResponse)
    (rest : List PageResponse) (tok : String) (rl : Bool) :
    (runPager opts (r :: rest) tok rl).1.head? = some (.pageRequest tok) := by
  cases r with
  | page entries nextTok =>
    rw [runPager_page]
    split <;> rfl
  | fail e =>
    simp only [runPager]
    by_cases h1 : e.isContextCanceled = true ∨ e.errorString = "no more items in iterator"
    · rw [if_pos h1]
      rfl
    · rw [if_neg h1]
      by_cases h2 : (handleRateLimitError e rl).2 = true
      · rw [if_pos h2]
        rfl
      · rw [if_neg h2]
        by_cases h3 : e.statusCode = some .unauthenticated
        · rw [if_pos h3]
          rfl
        · rw [if_neg h3]
          rfl

/-- C8 (confirmed): a page-fetch error carrying the `Unauthenticated`
status (and not classified as cancellation, exhaustion, or rate limiting)
stops the loop at once — a single page request, no retry, no cursor
re-creation — and returns the synthesized re-authentication error rather
than the raw backend error. -/
theorem unauthenticated_stops_loop (opts : List EntriesOption) (e : FetchErr)
    (rest : List PageResponse) (tok : String) (rl : Bool)
    (h1 : e.isContextCanceled = false)
    (h2 : e.errorString ≠ "no more items in iterator")
    (h3 : isRateLimitError e = false)
    (h4 : e.statusCode = some .unauthenticated) :
    runPager opts (.fail e :: rest) tok rl =
      ([.pageRequest tok],
        .unauthenticatedError
          "unauthenticated, please run `gcloud auth application-default login` and try again") := by
  simp only [runPager]
  rw [if_neg (by simp [h1, h2]), handleRateLimitError_of_not_rl rl h3]
  simp [h4]

/-- Witness for the C8 theorem at a concrete input. -/
theorem unauthenticated_stops_loop_witness :
    runPager [] [.fail (.grpc .unauthenticated "rpc error: code = Unauthenticated"),
        .page [] ""] "tk" false =
      ([.pageRequest "tk"],
        .unauthenticatedError
          "unauthenticated, please run `gcloud auth application-default login` and try again") :=
  unauthenticated_stops_loop [] (.grpc .unauthenticated "rpc error: code = Unauthenticated")
    [.page [] ""] "tk" false rfl (by decide) rfl rfl

/-- C1 (confirmed): on a rate-limit error the loop keeps the saved
continuation token: the trace shows the failed request, the rate-limit
handling (including a one-second sleep), a cursor re-created with the same
request options and the same token, and then the loop continuing from
that token; no output line is emitted for the failed fetch (so the
retried run emits exactly what the continuation emits — nothing skipped,
nothing repeated), and the retried page fetch carries the same token. -/
theorem rateLimit_preserves_token (opts : List EntriesOption) (e : FetchErr)
    (rest : List PageResponse) (tok : String) (rl : Bool)
    (h1 : isRateLimitError e = true)
    (h2 : e.errorString ≠ "no more items in iterator") :
    runPager opts (.fail e :: rest) tok rl =
      (.pageRequest tok :: (handleRateLimitError e rl).1 ++ .newCursor opts tok ::
        (runPager opts rest tok true).1,
       (runPager opts rest tok true).2) ∧
    Event.sleepSec 1 ∈ (handleRateLimitError e rl).1 ∧
    emittedLines (runPager opts (.fail e :: rest) tok rl).1 =
      emittedLines (runPager opts rest tok true).1 ∧
    (∀ r rest2, rest = r :: rest2 →
      (runPager opts rest tok true).1.head? = some (.pageRequest tok)) := by
  have hstep := runPager_fail_rl opts e rest tok rl h1 h2
  refine ⟨hstep, ?_, ?_, ?_⟩
  · cases e <;> simp [isRateLimitError] at h1
    case api reason ql qlv c msg =>
      simp only [handleRateLimitError, h1, ite_true]
      repeat' split <;> simp
  · rw [hstep]
    dsimp only
    simp only [emittedLines_cons_pageRequest, emittedLines_append,
      emittedLines_handleRateLimitError, emittedLines_cons_newCursor, List.nil_append]
  · intro r rest2 hr
    subst hr
    exact runPager_cons_head opts r rest2 tok true

/-- Witness for the C1 theorem at a concrete input. -/
theorem rateLimit_preserves_token_witness :
    runPager [EntriesOption.pageSize 1000]
        [.fail (.api "RATE_LIMIT_EXCEEDED" "q" "v" .resourceExhausted "rpc error: quota"),
          .page [] ""] "t1" false =
      (.pageRequest "t1" ::
        (handleRateLimitError
          (.api "RATE_LIMIT_EXCEEDED" "q" "v" .resourceExhausted "rpc error: quota") false).1 ++
        .newCursor [EntriesOption.pageSize 1000] "t1" ::
        (runPager [EntriesOption.pageSize 1000] [.page [] ""] "t1" true).1,
       (runPager [EntriesOption.pageSize 1000] [.page [] ""] "t1" true).2) ∧
    (runPager [EntriesOption.pageSize 1000] [.page [] ""] "t1" true).1.head? =
      some (.pageRequest "t1") :=
  ⟨(rateLimit_preserves_token [EntriesOption.pageSize 1000]
      (.api "RATE_LIMIT_EXCEEDED" "q" "v" .resourceExhausted "rpc error: quota")
      [.page [] ""] "t1" false (by decide) (by decide)).1,
    (rateLimit_preserves_token [EntriesOption.pageSize 1000]
      (.api "RATE_LIMIT_EXCEEDED" "q" "v" .resourceExhausted "rpc error: quota")
      [.page [] ""] "t1" false (by decide) (by decide)).2.2.2 (.page [] "") [] rfl⟩

/-! ## C2: termination -/

lemma countEv_append (p : Event → Bool) (a b : List Event) :
    countEv p (a ++ b) = countEv p a + countEv p b := by
  simp [countEv, List.filter_append]

lemma isReqEv_processEntry (en : LogEntry) : isReqEv (processEntry en) = false := by
  unfold processEntry
  split <;> rfl

lemma countEv_req_processEntries (es : List LogEntry) :
    countEv isReqEv (processEntries es) = 0 := by
  induction es with
  | nil => rfl
  | cons en t ih =>
    simp only [processEntries, List.map_cons] at *
    simp [countEv, List.filter_cons, isReqEv_processEntry en] at *
    exact ih

lemma countEv_req_clear (rl : Bool) :
    countEv isReqEv (if rl = true then [Event.logLine "Rate limit expired"] else []) = 0 := by
  split <;> rfl

lemma npageScript_run (opts : List EntriesOption) :
    ∀ script : List PageResponse, NPageScript script = true →
    ∀ (extra : List PageResponse) (tok : String) (rl : Bool),
      (runPager opts (script ++ extra) tok rl).2 = .ok ∧
      countEv isReqEv (runPager opts (script ++ extra) tok rl).1 = script.length := by
  intro script
  induction script with
  | nil => intro h; simp [NPageScript] at h
  | cons x s2 ih =>
    intro h extra tok rl
    cases x with
    | fail e =>
      cases s2 <;> simp [NPageScript] at h
    | page es t =>
      cases s2 with
      | nil =>
        have ht : t = "" := by simpa [NPageScript] using h
        subst ht
        rw [List.cons_append, List.nil_append, runPager_page, if_pos rfl]
        refine ⟨rfl, ?_⟩
        simp only [List.length_cons, List.length_nil]
        show countEv isReqEv (.pageRequest tok :: _ ++ processEntries es) = 1
        rw [show (Event.pageRequest tok :: (if rl = true then
            [Event.logLine "Rate limit expired"] else []) ++ processEntries es) =
          [Event.pageRequest tok] ++ ((if rl = true then
            [Event.logLine "Rate limit expired"] else []) ++ processEntries es) from rfl]
        rw [countEv_append, countEv_append, countEv_req_clear, countEv_req_processEntries]
        rfl
      | cons r s3 =>
        have ht : t ≠ "" ∧ NPageScript (r :: s3) = true := by
          have := h
          simp only [NPageScript, Bool.and_eq_true, decide_eq_true_eq] at this
          exact ⟨this.1, this.2⟩
        rw [List.cons_append, runPager_page, if_neg ht.1]
        have IH := ih ht.2 extra t false
        refine ⟨IH.1, ?_⟩
        simp only [List.length_cons]
        show countEv isReqEv (.pageRequest tok :: _ ++ processEntries es ++ _) = _
        rw [show (Event.pageRequest tok :: (if rl = true then
            [Event.logLine "Rate limit expired"] else []) ++ processEntries es ++
            (runPager opts (r :: s3 ++ extra) t false).1) =
          [Event.pageRequest tok] ++ ((if rl = true then
            [Event.logLine "Rate limit expired"] else []) ++ processEntries es ++
            (runPager opts (r :: s3 ++ extra) t false).1) from rfl]
        rw [countEv_append, countEv_append, countEv_append, countEv_req_clear,
          countEv_req_processEntries, IH.2]
        simp [countEv, List.filter, isReqEv]
        omega

/-- C2 (confirmed): a backend serving `N` pages with an empty continuation
token on the last one makes the loop stop after exactly `N` page fetches
with normal (non-error) completion, requesting nothing further even if
more responses were available; a cancellation error or the
`"no more items in iterator"` sentinel likewise ends the loop immediately
with no error and no further page requests. -/
theorem fetchLoop_termination (opts : List EntriesOption) :
    (∀ script extra : List PageResponse, NPageScript script = true →
      (fetchAndProcessLogs opts (script ++ extra)).2 = .ok ∧
      countEv isReqEv (fetchAndProcessLogs opts (script ++ extra)).1 = script.length) ∧
    (∀ (e : FetchErr) (rest : List PageResponse) (tok : String) (rl : Bool),
      e.isContextCanceled = true ∨ e.errorString = "no more items in iterator" →
      runPager opts (.fail e :: rest) tok rl = ([.pageRequest tok], .ok)) := by
  constructor
  · intro script extra h
    have main := npageScript_run opts script h extra "" false
    unfold fetchAndProcessLogs
    refine ⟨main.1, ?_⟩
    dsimp only
    rw [show (Event.newCursor opts "" :: (runPager opts (script ++ extra) "" false).1) =
      [Event.newCursor opts ""] ++ (runPager opts (script ++ extra) "" false).1 from rfl]
    rw [countEv_append, main.2]
    simp [countEv, List.filter, isReqEv]
  · intro e rest tok rl h
    exact runPager_fail_done opts e rest tok rl h

/-- Witness for the C2 theorem at concrete inputs: a two-page script
followed by an extra (never-requested) response, and a cancellation. -/
theorem fetchLoop_termination_witness :
    (fetchAndProcessLogs [] [.page [] "t1", .page [] "", .page [] "t9"]).2 = .ok ∧
    countEv isReqEv (fetchAndProcessLogs [] [.page [] "t1", .page [] "", .page [] "t9"]).1 = 2 ∧
    runPager [] [.fail .canceled, .page [] "t5"] "tk" false = ([.pageRequest "tk"], .ok) :=
  ⟨((fetchLoop_termination []).1 [.page [] "t1", .page [] ""] [.page [] "t9"] (by decide)).1,
    ((fetchLoop_termination []).1 [.page [] "t1", .page [] ""] [.page [] "t9"] (by decide)).2,
    (fetchLoop_termination []).2 .canceled [.page [] "t5"] "tk" false (Or.inl rfl)⟩

/-! ## C6: per-entry serialization failure -/

lemma emittedLines_cons_emit (s : String) (l : List Event) :
    emittedLines (.emit s :: l) = s :: emittedLines l := rfl

lemma emittedLines_cons_logLine (s : String) (l : List Event) :
    emittedLines (.logLine s :: l) = emittedLines l := rfl

lemma processEntries_append (a b : List LogEntry) :
    processEntries (a ++ b) = processEntries a ++ processEntries b := by
  simp [processEntries]

lemma emittedLines_processEntries_allok (es : List LogEntry)
    (h : ∀ x ∈ es, ∃ j, x.marshalResult = .ok j) :
    (emittedLines (processEntries es)).length = es.length := by
  induction es with
  | nil => rfl
  | cons x t ih =>
    obtain ⟨j, hj⟩ := h x (List.mem_cons_self x t)
    have hx : processEntry x = .emit j := by
      unfold processEntry
      rw [hj]
    simp only [processEntries, List.map_cons, hx, emittedLines_cons_emit,
      List.length_cons]
    rw [show List.map processEntry t = processEntries t from rfl,
      ih (fun y hy => h y (List.mem_cons_of_mem x hy))]

/-- C6 (confirmed): when one entry in a successfully fetched page fails
JSON serialization and the other `N − 1` entries serialize, the page
contributes exactly `N − 1` emitted output lines, the failure is logged
with the entry's identifier, and the loop's outcome is exactly what it
would have been without the failing entry — the failure never aborts the
loop. -/
theorem marshal_failure_skips_entry (opts : List EntriesOption)
    (pre post : List LogEntry) (en : LogEntry) (msg : String) (nt : String)
    (rest : List PageResponse) (tok : String) (rl : Bool)
    (hfail : en.marshalResult = .failure msg)
    (hok : ∀ x ∈ pre ++ post, ∃ j, x.marshalResult = .ok j) :
    (emittedLines (processEntries (pre ++ en :: post))).length =
      pre.length + post.length ∧
    Event.logLine ("Error marshaling log entry (" ++ en.insertId ++ "): " ++ msg) ∈
      (runPager opts (.page (pre ++ en :: post) nt :: rest) tok rl).1 ∧
    (runPager opts (.page (pre ++ en :: post) nt :: rest) tok rl).2 =
      (runPager opts (.page (pre ++ post) nt :: rest) tok rl).2 := by
  have hpe : processEntry en =
      .logLine ("Error marshaling log entry (" ++ en.insertId ++ "): " ++ msg) := by
    unfold processEntry
    rw [hfail]
  have hsplit : processEntries (pre ++ en :: post) =
      processEntries pre ++ processEntry en :: processEntries post := by
    simp [processEntries]
  have hokpre : ∀ x ∈ pre, ∃ j, x.marshalResult = .ok j :=
    fun x hx => hok x (List.mem_append_left _ hx)
  have hokpost : ∀ x ∈ post, ∃ j, x.marshalResult = .ok j :=
    fun x hx => hok x (List.mem_append_right _ hx)
  refine ⟨?_, ?_, ?_⟩
  · rw [hsplit, emittedLines_append, hpe, emittedLines_cons_logLine,
      List.length_append, emittedLines_processEntries_allok pre hokpre,
      emittedLines_processEntries_allok post hokpost]
  · have hmem : Event.logLine ("Error marshaling log entry (" ++ en.insertId ++
        "): " ++ msg) ∈ processEntries (pre ++ en :: post) := by
      rw [hsplit, ← hpe]
      exact List.mem_append_right _ (List.mem_cons_self _ _)
    rw [runPager_page]
    by_cases hnt : nt = ""
    · rw [if_pos hnt]
      dsimp only
      exact List.mem_cons_of_mem _ (List.mem_append_right _ hmem)
    · rw [if_neg hnt]
      dsimp only
      refine List.mem_cons_of_mem _ ?_
      simp only [List.append_eq, List.append_assoc]
      exact List.mem_append_right _ (List.mem_append_left _ hmem)
  · rw [runPager_page, runPager_page]
    by_cases hnt : nt = ""
    · rw [if_pos hnt, if_pos hnt]
    · rw [if_neg hnt, if_neg hnt]

/-- Witness for the C6 theorem at a concrete input: a three-entry page
whose middle entry fails to serialize. -/
theorem marshal_failure_skips_entry_witness :
    (emittedLines (processEntries
      ([⟨"a", .ok "ja"⟩] ++ (⟨"b", .failure "oops"⟩ : LogEntry) ::
        [⟨"c", .ok "jc"⟩]))).length = 2 ∧
    Event.logLine ("Error marshaling log entry (" ++ "b" ++ "): " ++ "oops") ∈
      (runPager [] [.page ([⟨"a", .ok "ja"⟩] ++ (⟨"b", .failure "oops"⟩ : LogEntry) ::
        [⟨"c", .ok "jc"⟩]) "" ] "" false).1 ∧
    (runPager [] [.page ([⟨"a", .ok "ja"⟩] ++ (⟨"b", .failure "oops"⟩ : LogEntry) ::
        [⟨"c", .ok "jc"⟩]) "" ] "" false).2 =
      (runPager [] [.page ([⟨"a", .ok "ja"⟩] ++ [(⟨"c", .ok "jc"⟩ : LogEntry)]) "" ]
        "" false).2 := by
  have h := marshal_failure_skips_entry [] [⟨"a", .ok "ja"⟩] [⟨"c", .ok "jc"⟩]
    ⟨"b", .failure "oops"⟩ "oops" "" [] "" false rfl
    (by
      intro x hx
      simp only [List.cons_append, List.nil_append, List.mem_cons,
        List.not_mem_nil, or_false] at hx
      rcases hx with rfl | rfl
      · exact ⟨"ja", rfl⟩
      · exact ⟨"jc", rfl⟩)
  exact ⟨h.1, h.2.1, h.2.2⟩

/-! ## C7: rate-limit streak logging -/

lemma runPager_streak_true (opts : List EntriesOption) (e : FetchErr)
    (h1 : isRateLimitError e = true)
    (h2 : e.errorString ≠ "no more items in iterator") :
    ∀ (k : Nat) (s : List PageResponse) (tok : String),
      runPager opts (List.replicate k (.fail e) ++ s) tok true =
        ((List.replicate k
            [Event.pageRequest tok, .logLine ".", .sleepSec 1, .newCursor opts tok]).flatten ++
          (runPager opts s tok true).1,
         (runPager opts s tok true).2) := by
  intro k
  induction k with
  | zero => intro s tok; simp
  | succ n ih =>
    intro s tok
    rw [List.replicate_succ, List.cons_append,
      runPager_fail_rl opts e _ tok true h1 h2,
      handleRateLimitError_rl_true_events h1, ih s tok]
    rw [List.replicate_succ (n := n)]
    simp [List.append_assoc]

/-- C7 (confirmed): over a contiguous streak of `k ≥ 1` consecutive
rate-limit errors followed by a successful page, the trace equals the
unthrottled trace with exactly these insertions: one detailed
`"Rate limit exceeded..."` block at the first error (a single detailed
log line — or, without quota metadata, the detailed line plus the raw
error), exactly `k − 1` terse `"."` blocks for the subsequent errors, and
exactly one `"Rate limit expired"` notice when the streak ends with the
successful fetch; everything else (entries emitted, continuation, result)
is identical to the run without the streak. -/
theorem rateLimit_streak_logging (opts : List EntriesOption) (k : Nat) (e : FetchErr)
    (entries : List LogEntry) (nt : String) (rest : List PageResponse) (tok : String)
    (hk : 1 ≤ k) (h1 : isRateLimitError e = true)
    (h2 : e.errorString ≠ "no more items in iterator") :
    ∃ (tailEvs : List Event) (res : LoopResult),
      runPager opts (.page entries nt :: rest) tok false =
        (.pageRequest tok :: processEntries entries ++ tailEvs, res) ∧
      runPager opts (List.replicate k (.fail e) ++ .page entries nt :: rest) tok false =
        (.pageRequest tok :: (handleRateLimitError e false).1 ++ .newCursor opts tok ::
          ((List.replicate (k - 1)
            [Event.pageRequest tok, .logLine ".", .sleepSec 1, .newCursor opts tok]).flatten ++
          .pageRequest tok :: .logLine "Rate limit expired" :: processEntries entries ++
            tailEvs),
         res) ∧
      (handleRateLimitError e true).1 = [.logLine ".", .sleepSec 1] ∧
      ((handleRateLimitError e false).1 =
          [.logLine ("Rate limit exceeded (" ++ e.quotaLimit ++ ": " ++
            e.quotaLimitValue ++ "), sleeping..."), .sleepSec 1] ∨
        (handleRateLimitError e false).1 =
          [.logLine "Rate limit exceeded, sleeping...", .logLine e.errorString,
            .sleepSec 1]) := by
  obtain ⟨n, rfl⟩ : ∃ n, k = n + 1 := ⟨k - 1, by omega⟩
  refine ⟨(if nt = "" then [] else (runPager opts rest nt false).1),
    (if nt = "" then .ok else (runPager opts rest nt false).2), ?_, ?_,
    handleRateLimitError_rl_true_events h1, handleRateLimitError_rl_false_events h1⟩
  · rw [runPager_page]
    by_cases hnt : nt = "" <;> simp [hnt]
  · rw [List.replicate_succ, List.cons_append,
      runPager_fail_rl opts e _ tok false h1 h2,
      runPager_streak_true opts e h1 h2 n (.page entries nt :: rest) tok,
      runPager_page]
    by_cases hnt : nt = "" <;> simp [hnt, List.append_assoc]

/-- Witness for the C7 theorem at a concrete input: a streak of two
rate-limit errors before a successful final page. -/
theorem rateLimit_streak_logging_witness :
    ∃ (tailEvs : List Event) (res : LoopResult),
      runPager [] [.page [⟨"a", .ok "ja"⟩] ""] "t" false =
        (.pageRequest "t" :: processEntries [⟨"a", .ok "ja"⟩] ++ tailEvs, res) ∧
      runPager []
          (List.replicate 2
            (.fail (.api "RATE_LIMIT_EXCEEDED" "q" "v" .resourceExhausted "rpc")) ++
            [.page [⟨"a", .ok "ja"⟩] ""]) "t" false =
        (.pageRequest "t" ::
          (handleRateLimitError
            (.api "RATE_LIMIT_EXCEEDED" "q" "v" .resourceExhausted "rpc") false).1 ++
          .newCursor [] "t" ::
          ((List.replicate (2 - 1)
            [Event.pageRequest "t", .logLine ".", .sleepSec 1, .newCursor [] "t"]).flatten ++
          .pageRequest "t" :: .logLine "Rate limit expired" ::
            processEntries [⟨"a", .ok "ja"⟩] ++ tailEvs),
         res) ∧
      (handleRateLimitError
        (.api "RATE_LIMIT_EXCEEDED" "q" "v" .resourceExhausted "rpc") true).1 =
        [.logLine ".", .sleepSec 1] ∧
      ((handleRateLimitError
          (.api "RATE_LIMIT_EXCEEDED" "q" "v" .resourceExhausted "rpc") false).1 =
          [.logLine ("Rate limit exceeded (" ++
            (FetchErr.api "RATE_LIMIT_EXCEEDED" "q" "v" .resourceExhausted
              "rpc").quotaLimit ++ ": " ++
            (FetchErr.api "RATE_LIMIT_EXCEEDED" "q" "v" .resourceExhausted
              "rpc").quotaLimitValue ++ "), sleeping..."), .sleepSec 1] ∨
        (handleRateLimitError
          (.api "RATE_LIMIT_EXCEEDED" "q" "v" .resourceExhausted "rpc") false).1 =
          [.logLine "Rate limit exceeded, sleeping...",
            .logLine (FetchErr.api "RATE_LIMIT_EXCEEDED" "q" "v" .resourceExhausted
              "rpc").errorString, .sleepSec 1]) :=
  rateLimit_streak_logging [] 2
    (.api "RATE_LIMIT_EXCEEDED" "q" "v" .resourceExhausted "rpc")
    [⟨"a", .ok "ja"⟩] "" [] "t" (by decide) (by decide) (by decide)

end Grapple
